import Mathlib

/-!
Shallow embedding of the dev-browser core (named-page registry, connection
broker, snapshot/reference engine, MCP tool layer) and proofs about it.

The client side is embedded from `src/client.ts` (`connect`: `ensureConnected`,
`findPageByTargetId`, `page`, `list`, `close`) and the tool layer from
`src/tools.ts` (`handleToolCall`).  Effects of the automation library
(Playwright/CDP, HTTP fetch) are modelled as oracles: each external call site
is a field of an environment record giving that call's result, and the
embedded functions also emit a trace of the external actions they performed,
in order.
-/

namespace DevBrowser

/-- Error taxonomy of the error design.  The TypeScript code throws plain
`Error` objects; each constructor stands for one throw/failure site and
carries the message the code builds there. -/
inductive ClientError where
  | pageResolutionError (msg : String)
  | connectionLostError (msg : String)
  | httpError (msg : String)
  | otherError (msg : String)
deriving DecidableEq, Repr

/-- One page reachable from a CDP connection.  `queryResult` is the outcome of
`Target.getTargetInfo` on a fresh CDP session for this page: `some id` when
the query succeeds and reports target id `id`, `none` when it throws (the
code catches that and skips the page).  `handleId` stands for the identity of
the live Playwright `Page` handle. -/
structure CDPPage where
  handleId : Nat
  queryResult : Option String
deriving DecidableEq, Repr

/-- A browser context: an ordered list of its pages. -/
structure BrowserCtx where
  pages : List CDPPage
deriving DecidableEq, Repr

/-- The browser connection handle: its contexts, and whether
`browser.isConnected()` currently reports true. -/
structure BrowserModel where
  contexts : List BrowserCtx
  connected : Bool
deriving DecidableEq, Repr

/-- `targetInfo.targetId === targetId` after a successful query; a page whose
query threw matches nothing. -/
def pageMatches (targetId : String) (p : CDPPage) : Bool :=
  p.queryResult = some targetId

/-- Inner loop of `findPageByTargetId`: `for (const page of context.pages())`,
returning the first page whose queried identity equals `targetId`, skipping
pages whose CDP query failed. -/
def findInPages (targetId : String) : List CDPPage → Option CDPPage
  | [] => none
  | p :: rest =>
    if pageMatches targetId p then some p else findInPages targetId rest

/-- Outer loop of `findPageByTargetId`: `for (const context of b.contexts())`. -/
def findInContexts (targetId : String) : List BrowserCtx → Option CDPPage
  | [] => none
  | c :: rest =>
    match findInPages targetId c.pages with
    | some p => some p
    | none => findInContexts targetId rest

/-- `findPageByTargetId(b, targetId)` from `src/client.ts`: scan all contexts
and their pages, query each page's target identity over CDP, return the first
match, `null` if none. -/
def findPageByTargetId (b : BrowserModel) (targetId : String) : Option CDPPage :=
  findInContexts targetId b.contexts

/-- All pages reachable from the connection, in scan order (contexts in order,
pages in order within each context). -/
def allPages (b : BrowserModel) : List CDPPage :=
  (b.contexts.map BrowserCtx.pages).flatten

/-- Tail of `page(name)` in `src/client.ts`: after `findPageByTargetId`, a
`null` result becomes the thrown error `Page "<name>" not found in browser
contexts`; this failure realises the design's `PageResolutionError`. -/
def resolveTarget (b : BrowserModel) (targetId : String) (name : String) :
    Except ClientError CDPPage :=
  match findPageByTargetId b targetId with
  | some p => Except.ok p
  | none =>
      Except.error (ClientError.pageResolutionError
        ("Page \"" ++ name ++ "\" not found in browser contexts"))

/-! ### Connection broker (`connect` closure state in `src/client.ts`) -/

/-- The closure state of `connect`: `let browser: Browser | null`,
`let wsEndpoint: string | null`. -/
structure Session where
  browser : Option BrowserModel
  wsEndpoint : Option String
deriving DecidableEq, Repr

/-- External actions the broker can perform, recorded in traces. -/
inductive BrokerAction where
  | fetchEndpoint
  | attach (wsEndpoint : String)
deriving DecidableEq, Repr

/-- Oracle for the broker's external calls: the outcome of `fetch(serverUrl)`
(returning the `wsEndpoint` field of the JSON body), and the outcome of each
`chromium.connectOverCDP(wsEndpoint)` attempt.  `attachAgain` is never
consulted by the code under `src/`; it exists so that the spec's stated
retry-once policy can be written down and compared against the code. -/
structure BrokerEnv where
  fetchResult : Except ClientError String
  attachOnce : String → Except ClientError BrowserModel
  attachAgain : String → Except ClientError BrowserModel

/-- The fetch-and-attach tail of `ensureConnected` in `src/client.ts`: fetch
the `wsEndpoint` from the server, then `chromium.connectOverCDP(wsEndpoint)`,
storing both into the closure state on success.  Exactly one attach attempt
is made; any failure propagates. -/
def attachFresh (env : BrokerEnv) :
    Except ClientError (BrowserModel × Session) × List BrokerAction :=
  match env.fetchResult with
  | Except.error e => (Except.error e, [BrokerAction.fetchEndpoint])
  | Except.ok ep =>
    match env.attachOnce ep with
    | Except.error e =>
        (Except.error e, [BrokerAction.fetchEndpoint, BrokerAction.attach ep])
    | Except.ok b =>
        (Except.ok (b, { browser := some b, wsEndpoint := some ep }),
         [BrokerAction.fetchEndpoint, BrokerAction.attach ep])

/-- `ensureConnected()` from `src/client.ts`: if the cached `browser` exists
and `browser.isConnected()`, return it; otherwise fetch the endpoint and
attach fresh. -/
def ensureConnected (s : Session) (env : BrokerEnv) :
    Except ClientError (BrowserModel × Session) × List BrokerAction :=
  match s.browser with
  | some b => if b.connected then (Except.ok (b, s), []) else attachFresh env
  | none => attachFresh env

/-- Whether an error is the design's `ConnectionLostError`. -/
def isConnectionLost : ClientError → Bool
  | ClientError.connectionLostError _ => true
  | _ => false

/-- What the spec's propagation-policy sentence describes (not found in the
code): fetch the endpoint, attach, and on a `ConnectionLostError` from the
attach retry the attach exactly once before surfacing the error. -/
def attachRetryOncePolicy (env : BrokerEnv) : Except ClientError BrowserModel :=
  match env.fetchResult with
  | Except.error e => Except.error e
  | Except.ok ep =>
    match env.attachOnce ep with
    | Except.error e =>
        if isConnectionLost e then env.attachAgain ep else Except.error e
    | Except.ok b => Except.ok b

/-! ### Page registry (server side; modelled from the spec, §4.1) -/

/-- Registry state: entries in creation order (`name → targetId`), and a
counter from which fresh, never-reused target identities are minted. -/
structure Registry where
  entries : List (String × String)
  nextId : Nat
deriving DecidableEq, Repr

/-- Result of a `getOrCreate` call: the targetId handed back, the registry
afterwards, and whether an underlying page was opened by this call. -/
structure GetOrCreateResult where
  targetId : String
  registry : Registry
  createdPage : Bool
deriving DecidableEq, Repr

/-- Modelled from the spec: the Page Registry's `getOrCreate(name) → targetId`
(the server implementation is not under `src/`): idempotent create-or-get
keyed by the caller-supplied name; a hit returns the stored targetId and
opens nothing; a miss opens one page, mints a fresh targetId and appends the
entry in creation order. -/
def getOrCreate (r : Registry) (name : String) : GetOrCreateResult :=
  match r.entries.lookup name with
  | some tid => { targetId := tid, registry := r, createdPage := false }
  | none =>
    let tid := "target-" ++ toString r.nextId
    { targetId := tid,
      registry := { entries := r.entries ++ [(name, tid)], nextId := r.nextId + 1 },
      createdPage := true }

/-! ### Snapshot and reference resolution (client side; modelled from the
spec, §3 and §4.4) -/

/-- A locating strategy stored in a snapshot's refMap; `target` stands for
the DOM node it re-finds. -/
structure ElementLocator where
  target : Nat
deriving DecidableEq, Repr

/-- The current snapshot of one page: the arena mapping ref ids to locators. -/
structure PageSnapshot where
  refMap : List (String × ElementLocator)
deriving DecidableEq, Repr

/-- One page as the snapshot client sees it: the nodes still present in the
live document, and the page's current snapshot (none before the first). -/
structure PageView where
  liveElems : List Nat
  current : Option PageSnapshot
deriving DecidableEq, Repr

/-- Client-side snapshot bookkeeping: per page name, its view. -/
structure SnapClientState where
  pages : List (String × PageView)
deriving DecidableEq, Repr

/-- Reference-resolution errors of the design. -/
inductive RefError where
  | staleRefError
  | elementDetachedError
deriving DecidableEq, Repr

/-- Look `ref` up in the current snapshot's refMap for `pageName`; `none`
when the page has no current snapshot or the ref is absent from it. -/
def lookupRef (cs : SnapClientState) (pageName ref : String) : Option ElementLocator :=
  match cs.pages.lookup pageName with
  | none => none
  | some pv =>
    match pv.current with
    | none => none
    | some snap => snap.refMap.lookup ref

/-- Modelled from the spec: `resolveElement(pageName, ref)` — the client's
`selectSnapshotRef`, whose implementation is not under `src/`.  Looks `ref`
up in the page's current snapshot `refMap`; absent (unknown ref, or snapshot
superseded) → `StaleRefError`; present but the node no longer findable →
`ElementDetachedError`; otherwise the live element handle. -/
def resolveElement (cs : SnapClientState) (pageName ref : String) : Except RefError Nat :=
  match cs.pages.lookup pageName with
  | none => Except.error RefError.staleRefError
  | some pv =>
    match pv.current with
    | none => Except.error RefError.staleRefError
    | some snap =>
      match snap.refMap.lookup ref with
      | none => Except.error RefError.staleRefError
      | some loc =>
        if loc.target ∈ pv.liveElems then Except.ok loc.target
        else Except.error RefError.elementDetachedError

/-- Replace the entry for `name` in an association list, appending it if
absent. -/
def setPage (ps : List (String × PageView)) (name : String) (pv : PageView) :
    List (String × PageView) :=
  match ps with
  | [] => [(name, pv)]
  | (k, v) :: rest =>
    if k = name then (k, pv) :: rest else (k, v) :: setPage rest name pv

/-- Modelled from the spec: issuing a new snapshot for a page supersedes the
prior one wholesale — the page's current snapshot becomes the freshly built
refMap, never a merge. -/
def takeSnapshot (cs : SnapClientState) (pageName : String)
    (newMap : List (String × ElementLocator)) : SnapClientState :=
  match cs.pages.lookup pageName with
  | some pv =>
      { pages := setPage cs.pages pageName { pv with current := some { refMap := newMap } } }
  | none =>
      { pages := cs.pages ++ [(pageName, { liveElems := [], current := some { refMap := newMap } })] }

/-! ### Tool layer (`handleToolCall` in `src/tools.ts`) -/

/-- The argument object of a tool call; every field optional, mirroring the
untyped `args?: Record<string, unknown>`.  An absent `args` object is the
all-`none` record. -/
structure ToolArgs where
  page : Option String := none
  url : Option String := none
  ref : Option String := none
  text : Option String := none
  clear : Option Bool := none
  direction : Option String := none
  amount : Option Int := none
  fullPage : Option Bool := none
  script : Option String := none
deriving DecidableEq, Repr

/-- JavaScript falsiness on an optional string: `undefined` and `""` are
falsy, everything else passes through. -/
def strOrNone (o : Option String) : Option String :=
  match o with
  | some s => if s = "" then none else some s
  | none => none

/-- Line 183 of `src/tools.ts`: `(args?.page as string) || "default"`. -/
def pageNameOf (o : Option String) : String :=
  match strOrNone o with
  | some s => s
  | none => "default"

/-- Line 273 of `src/tools.ts`: `(args?.amount as number) || 500` — the JS
`||` also replaces an explicit `0` by the default. -/
def scrollAmount (o : Option Int) : Int :=
  match o with
  | none => 500
  | some v => if v = 0 then 500 else v

/-- The calls into the browser client / Playwright that a tool body makes,
recorded as a trace in order. -/
inductive Action where
  | snap (page : String)
  | getPage (page : String)
  | selectRef (page ref : String)
  | goto (pageH : Nat) (url : String)
  | waitLoad (pageH : Nat)
  | clickA (elem : Nat)
  | fillA (elem : Nat) (text : String)
  | typeA (elem : Nat) (text : String)
  | wheelA (pageH : Nat) (dx dy : Int)
  | screenshotA (pageH : Nat) (fullPage : Bool)
  | listA
  | closeA (name : String)
  | scriptA (pageH : Nat) (script : String)
deriving DecidableEq, Repr

/-- Oracle for the client the tool layer calls into: each field gives the
outcome of one kind of external call (`Except.error m` models a thrown
`Error` with message `m`).  Page and element handles are `Nat`. -/
structure ClientModel where
  getAISnapshot : String → Except String String
  getPage : String → Except String Nat
  selectRef : String → String → Except String (Option Nat)
  clickElem : Nat → Except String Unit
  fillElem : Nat → String → Except String Unit
  typeElem : Nat → String → Except String Unit
  gotoUrl : Nat → String → Except String Unit
  waitLoad : Nat → Except String Unit
  wheel : Nat → Int → Int → Except String Unit
  screenshot : Nat → Bool → Except String String
  listPages : Except String (List String)
  closePage : String → Except String Unit
  runScript : Nat → String → Except String (Option String)

/-- A tool body's computation: either a value with the trace of external
actions performed, or a thrown error message with the trace up to the
throw. -/
abbrev ToolM (α : Type) := Except (String × List Action) (α × List Action)

/-- Perform one external call: record the action, propagate a thrown error. -/
def tstep {α : Type} (tr : List Action) (a : Action) : Except String α → ToolM α
  | Except.ok v => Except.ok (v, tr ++ [a])
  | Except.error m => Except.error (m, tr ++ [a])

/-- One item of the content array a tool call returns. -/
structure ToolResultItem where
  type : String
  text : Option String := none
  data : Option String := none
  mimeType : Option String := none
deriving DecidableEq, Repr

abbrev ToolResult := List ToolResultItem

def textItem (s : String) : ToolResultItem :=
  { type := "text", text := some s }

def errItem (m : String) : ToolResultItem :=
  textItem ("Error: " ++ m)

def imageItem (b64 : String) : ToolResultItem :=
  { type := "image", data := some b64, mimeType := some "image/png" }

/-- `case "browser_snapshot"` of `handleToolCall`. -/
def toolSnapshot (pageName : String) (c : ClientModel) : ToolM ToolResult :=
  match tstep [] (Action.snap pageName) (c.getAISnapshot pageName) with
  | Except.error e => Except.error e
  | Except.ok (snap, tr) => Except.ok ([textItem snap], tr)

/-- `case "browser_navigate"`. -/
def toolNavigate (pageName : String) (urlArg : Option String) (c : ClientModel) :
    ToolM ToolResult :=
  match strOrNone urlArg with
  | none => Except.error ("url is required", [])
  | some url =>
    match tstep [] (Action.getPage pageName) (c.getPage pageName) with
    | Except.error e => Except.error e
    | Except.ok (p, tr1) =>
      match tstep tr1 (Action.goto p url) (c.gotoUrl p url) with
      | Except.error e => Except.error e
      | Except.ok (_, tr2) =>
        match tstep tr2 (Action.waitLoad p) (c.waitLoad p) with
        | Except.error e => Except.error e
        | Except.ok (_, tr3) =>
          match tstep tr3 (Action.snap pageName) (c.getAISnapshot pageName) with
          | Except.error e => Except.error e
          | Except.ok (snap, tr4) =>
            Except.ok ([textItem ("Navigated to " ++ url ++ "\n\n" ++ snap)], tr4)

/-- `case "browser_click"`. -/
def toolClick (pageName : String) (refArg : Option String) (c : ClientModel) :
    ToolM ToolResult :=
  match strOrNone refArg with
  | none => Except.error ("ref is required", [])
  | some ref =>
    match tstep [] (Action.selectRef pageName ref) (c.selectRef pageName ref) with
    | Except.error e => Except.error e
    | Except.ok (elemOpt, tr1) =>
      match elemOpt with
      | none => Except.error ("Element with ref \"" ++ ref ++ "\" not found", tr1)
      | some elem =>
        match tstep tr1 (Action.clickA elem) (c.clickElem elem) with
        | Except.error e => Except.error e
        | Except.ok (_, tr2) =>
          match tstep tr2 (Action.getPage pageName) (c.getPage pageName) with
          | Except.error e => Except.error e
          | Except.ok (p, tr3) =>
            match tstep tr3 (Action.waitLoad p) (c.waitLoad p) with
            | Except.error e => Except.error e
            | Except.ok (_, tr4) =>
              match tstep tr4 (Action.snap pageName) (c.getAISnapshot pageName) with
              | Except.error e => Except.error e
              | Except.ok (snap, tr5) =>
                Except.ok
                  ([textItem ("Clicked element [ref=" ++ ref ++ "]\n\n" ++ snap)], tr5)

/-- `case "browser_type"`. -/
def toolType (pageName : String) (refArg textArg : Option String)
    (clearArg : Option Bool) (c : ClientModel) : ToolM ToolResult :=
  match strOrNone refArg with
  | none => Except.error ("ref is required", [])
  | some ref =>
    match strOrNone textArg with
    | none => Except.error ("text is required", [])
    | some text =>
      match tstep [] (Action.selectRef pageName ref) (c.selectRef pageName ref) with
      | Except.error e => Except.error e
      | Except.ok (elemOpt, tr1) =>
        match elemOpt with
        | none => Except.error ("Element with ref \"" ++ ref ++ "\" not found", tr1)
        | some elem =>
          match (match clearArg.getD false with
            | true => tstep tr1 (Action.fillA elem text) (c.fillElem elem text)
            | false => tstep tr1 (Action.typeA elem text) (c.typeElem elem text)) with
          | Except.error e => Except.error e
          | Except.ok (_, tr2) =>
            match tstep tr2 (Action.snap pageName) (c.getAISnapshot pageName) with
            | Except.error e => Except.error e
            | Except.ok (snap, tr3) =>
              Except.ok
                ([textItem ("Typed \"" ++ text ++ "\" into [ref=" ++ ref ++ "]\n\n" ++ snap)],
                 tr3)

/-- `case "browser_screenshot"`. -/
def toolScreenshot (pageName : String) (fullPageArg : Option Bool) (c : ClientModel) :
    ToolM ToolResult :=
  match tstep [] (Action.getPage pageName) (c.getPage pageName) with
  | Except.error e => Except.error e
  | Except.ok (p, tr1) =>
    match tstep tr1 (Action.screenshotA p (fullPageArg.getD false))
        (c.screenshot p (fullPageArg.getD false)) with
    | Except.error e => Except.error e
    | Except.ok (b64, tr2) => Except.ok ([imageItem b64], tr2)

/-- `case "browser_scroll"`. -/
def toolScroll (pageName : String) (directionArg : Option String)
    (amountArg : Option Int) (c : ClientModel) : ToolM ToolResult :=
  match strOrNone directionArg with
  | none => Except.error ("direction is required", [])
  | some direction =>
    match tstep [] (Action.getPage pageName) (c.getPage pageName) with
    | Except.error e => Except.error e
    | Except.ok (p, tr1) =>
      match tstep tr1
          (Action.wheelA p 0
            (if direction = "down" then scrollAmount amountArg else -scrollAmount amountArg))
          (c.wheel p 0
            (if direction = "down" then scrollAmount amountArg else -scrollAmount amountArg)) with
      | Except.error e => Except.error e
      | Except.ok (_, tr2) =>
        match tstep tr2 (Action.waitLoad p) (c.waitLoad p) with
        | Except.error e => Except.error e
        | Except.ok (_, tr3) =>
          match tstep tr3 (Action.snap pageName) (c.getAISnapshot pageName) with
          | Except.error e => Except.error e
          | Except.ok (snap, tr4) =>
            Except.ok
              ([textItem ("Scrolled " ++ direction ++ " " ++
                 toString (scrollAmount amountArg) ++ "px\n\n" ++ snap)],
               tr4)

/-- `case "browser_run_script"`. -/
def toolRunScriptCase (pageName : String) (scriptArg : Option String) (c : ClientModel) :
    ToolM ToolResult :=
  match strOrNone scriptArg with
  | none => Except.error ("script is required", [])
  | some script =>
    match tstep [] (Action.getPage pageName) (c.getPage pageName) with
    | Except.error e => Except.error e
    | Except.ok (p, tr1) =>
      match tstep tr1 (Action.scriptA p script) (c.runScript p script) with
      | Except.error e => Except.error e
      | Except.ok (resOpt, tr2) =>
        Except.ok
          ([textItem (match resOpt with
            | some s => s
            | none => "Script executed successfully")], tr2)

/-- `case "browser_list_pages"`. -/
def toolListPages (c : ClientModel) : ToolM ToolResult :=
  match tstep [] Action.listA c.listPages with
  | Except.error e => Except.error e
  | Except.ok (ps, tr1) =>
    Except.ok
      ([textItem (if ps.length > 0 then
          "Open pages:\n" ++ String.intercalate "\n" (ps.map (fun p => "- " ++ p))
        else "No pages open")], tr1)

/-- `case "browser_close_page"`; note it reads `args?.page` directly, without
the `"default"` fallback. -/
def toolClosePage (pageArg : Option String) (c : ClientModel) : ToolM ToolResult :=
  match strOrNone pageArg with
  | none => Except.error ("page is required", [])
  | some pageToClose =>
    match tstep [] (Action.closeA pageToClose) (c.closePage pageToClose) with
    | Except.error e => Except.error e
    | Except.ok (_, tr1) =>
      Except.ok ([textItem ("Closed page \"" ++ pageToClose ++ "\"")], tr1)

/-- The `switch (name)` body of `handleToolCall`. -/
def runTool (name : String) (args : ToolArgs) (c : ClientModel) : ToolM ToolResult :=
  match name with
  | "browser_snapshot" => toolSnapshot (pageNameOf args.page) c
  | "browser_navigate" => toolNavigate (pageNameOf args.page) args.url c
  | "browser_click" => toolClick (pageNameOf args.page) args.ref c
  | "browser_type" => toolType (pageNameOf args.page) args.ref args.text args.clear c
  | "browser_screenshot" => toolScreenshot (pageNameOf args.page) args.fullPage c
  | "browser_scroll" => toolScroll (pageNameOf args.page) args.direction args.amount c
  | "browser_run_script" => toolRunScriptCase (pageNameOf args.page) args.script c
  | "browser_list_pages" => toolListPages c
  | "browser_close_page" => toolClosePage args.page c
  | _ => Except.error ("Unknown tool: " ++ name, [])

/-- `handleToolCall` from `src/tools.ts`: the whole switch sits in a
`try/catch`, and a caught error becomes the returned text
`Error: <message>` — nothing escapes the boundary. -/
def handleToolCall (name : String) (args : ToolArgs) (c : ClientModel) :
    ToolResult × List Action :=
  match runTool name args c with
  | Except.ok (res, tr) => (res, tr)
  | Except.error (m, tr) => ([errItem m], tr)

/-! ### Properties of the tool layer -/

/-- The page (or page-name) argument an action was invoked with, for the
actions that take one. -/
def pageOfAction : Action → Option String
  | Action.snap p => some p
  | Action.getPage p => some p
  | Action.selectRef p _ => some p
  | Action.closeA n => some n
  | _ => none

/-- The trace of a tool computation, whether it returned or threw. -/
def traceOf {α : Type} : ToolM α → List Action
  | Except.ok (_, tr) => tr
  | Except.error (_, tr) => tr

/-- Every page-named action in the trace targets page `pn`. -/
def trPagesOK (pn : String) (tr : List Action) : Prop :=
  ∀ a ∈ tr, ∀ q, pageOfAction a = some q → q = pn

/-- A content item is well typed: a text item carrying a string, or a
base64 PNG image item. -/
def itemWellTyped (it : ToolResultItem) : Bool :=
  (it.type == "text" && it.text.isSome && it.data == none && it.mimeType == none) ||
  (it.type == "image" && it.data.isSome && it.mimeType == some "image/png" && it.text == none)

def resultWellTyped (r : ToolResult) : Bool :=
  r.all itemWellTyped

/-- The nine tool names of `toolDefinitions` / the switch in `handleToolCall`. -/
def toolNames : List String :=
  ["browser_snapshot", "browser_navigate", "browser_click", "browser_type",
   "browser_screenshot", "browser_scroll", "browser_run_script",
   "browser_list_pages", "browser_close_page"]

/-- The tools that mutate page state and re-snapshot afterwards. -/
def mutatingTools : List String :=
  ["browser_navigate", "browser_click", "browser_type", "browser_scroll"]

/-! ### Concrete fixtures for evaluating the model -/

/-- A concrete client oracle in which every external call succeeds. -/
def cTest : ClientModel where
  getAISnapshot := fun _ => Except.ok "SNAP"
  getPage := fun _ => Except.ok 1
  selectRef := fun _ r => if r = "e1" then Except.ok (some 7) else Except.ok none
  clickElem := fun _ => Except.ok ()
  fillElem := fun _ _ => Except.ok ()
  typeElem := fun _ _ => Except.ok ()
  gotoUrl := fun _ _ => Except.ok ()
  waitLoad := fun _ => Except.ok ()
  wheel := fun _ _ _ => Except.ok ()
  screenshot := fun _ _ => Except.ok "aGVsbG8="
  listPages := Except.ok ["default"]
  closePage := fun _ => Except.ok ()
  runScript := fun _ _ => Except.ok (some "42")

/-- A concrete browser: first context has a page whose identity query fails,
second context has a page with target id `t9`. -/
def b0 : BrowserModel :=
  { contexts := [{ pages := [{ handleId := 1, queryResult := none }] },
                 { pages := [{ handleId := 2, queryResult := some "t9" }] }],
    connected := true }

/-- Broker oracle where the single attach attempt loses the connection but a
second attempt would succeed. -/
def envLost : BrokerEnv where
  fetchResult := Except.ok "ws://127.0.0.1:9223/devtools"
  attachOnce := fun _ =>
    Except.error (ClientError.connectionLostError "browser connection dropped")
  attachAgain := fun _ => Except.ok b0

/-- Broker oracle where fetching the endpoint itself fails. -/
def envFetchFail : BrokerEnv where
  fetchResult := Except.error (ClientError.httpError "fetch failed")
  attachOnce := fun _ => Except.ok b0
  attachAgain := fun _ => Except.ok b0

/-- Broker oracle where everything succeeds. -/
def envOk : BrokerEnv where
  fetchResult := Except.ok "ws://127.0.0.1:9223/devtools"
  attachOnce := fun _ => Except.ok b0
  attachAgain := fun _ => Except.ok b0

/-- A client process with zero prior state. -/
def sEmpty : Session := { browser := none, wsEndpoint := none }

/-- A session holding a cached, still-connected browser. -/
def sLive : Session := { browser := some b0, wsEndpoint := some "ws://cached" }

/-- The session state after a successful fresh attach through `envOk`. -/
def sAttached : Session :=
  { browser := some b0, wsEndpoint := some "ws://127.0.0.1:9223/devtools" }

/-- Snapshot client state: page "search" has a current snapshot whose refMap
holds only `e1`, and node 5 is live. -/
def cs0 : SnapClientState :=
  { pages := [("search",
      { liveElems := [5], current := some { refMap := [("e1", { target := 5 })] } })] }

/-! ### Theorems -/

theorem findInPages_eq_find? (tid : String) (ps : List CDPPage) :
    findInPages tid ps = ps.find? (pageMatches tid) := by
  induction ps with
  | nil => rfl
  | cons p rest ih =>
    by_cases h : pageMatches tid p
    · simp [findInPages, List.find?, h]
    · simp only [findInPages, if_neg h, ih, List.find?]
      simp [h]

theorem findInContexts_eq_find? (tid : String) (cs : List BrowserCtx) :
    findInContexts tid cs = ((cs.map BrowserCtx.pages).flatten).find? (pageMatches tid) := by
  induction cs with
  | nil => rfl
  | cons c rest ih =>
    show (match findInPages tid c.pages with
        | some p => some p
        | none => findInContexts tid rest) =
      ((c.pages :: rest.map BrowserCtx.pages).flatten).find? (pageMatches tid)
    rw [findInPages_eq_find?, ih, List.flatten_cons, List.find?_append]
    cases h : List.find? (pageMatches tid) c.pages <;> simp

theorem lookup_append_of_none {β : Type} {l₁ l₂ : List (String × β)} {n : String}
    (h : l₁.lookup n = none) : (l₁ ++ l₂).lookup n = l₂.lookup n := by
  induction l₁ with
  | nil => rfl
  | cons p rest ih =>
    obtain ⟨k, v⟩ := p
    by_cases hk : k = n
    · simp [List.lookup, hk] at h
    · simp only [List.cons_append, List.lookup] at h ⊢
      rw [show (n == k) = false by simp [Ne.symm hk]] at h ⊢
      exact ih h

theorem getOrCreate_lookup (r : Registry) (n : String) :
    (getOrCreate r n).registry.entries.lookup n = some (getOrCreate r n).targetId := by
  unfold getOrCreate
  cases h : r.entries.lookup n with
  | some tid => simp [h]
  | none => simp [h, lookup_append_of_none h, List.lookup]

theorem setPage_lookup (ps : List (String × PageView)) (name : String) (pv : PageView) :
    (setPage ps name pv).lookup name = some pv := by
  induction ps with
  | nil => simp [setPage, List.lookup]
  | cons p rest ih =>
    obtain ⟨k, v⟩ := p
    by_cases hk : k = name
    · simp [setPage, hk, List.lookup]
    · simp only [setPage, if_neg hk, List.lookup]
      rw [show (name == k) = false by simp [Ne.symm hk]]
      exact ih

theorem takeSnapshot_lookupRef (cs : SnapClientState) (pageName ref : String)
    (newMap : List (String × ElementLocator)) :
    lookupRef (takeSnapshot cs pageName newMap) pageName ref = newMap.lookup ref := by
  unfold takeSnapshot lookupRef
  cases h : cs.pages.lookup pageName with
  | some pv => simp [setPage_lookup]
  | none =>
    simp only []
    rw [lookup_append_of_none h]
    simp [List.lookup]

@[simp] theorem itemWellTyped_textItem (s : String) : itemWellTyped (textItem s) = true := rfl

@[simp] theorem itemWellTyped_errItem (m : String) : itemWellTyped (errItem m) = true := rfl

@[simp] theorem itemWellTyped_imageItem (s : String) : itemWellTyped (imageItem s) = true := rfl

@[simp] theorem resultWellTyped_single (it : ToolResultItem) :
    resultWellTyped [it] = itemWellTyped it := by
  simp [resultWellTyped]

theorem trPagesOK_nil (pn : String) : trPagesOK pn [] := by
  intro a ha
  exact absurd ha (List.not_mem_nil a)

theorem toolNavigate_props (pn : String) (u : Option String) (c : ClientModel) :
    trPagesOK pn (traceOf (toolNavigate pn u c)) ∧
    (∀ res tr, toolNavigate pn u c = Except.ok (res, tr) →
      resultWellTyped res = true ∧
      ∃ pre snapText, c.getAISnapshot pn = Except.ok snapText ∧
        res = [textItem (pre ++ snapText)] ∧
        tr.getLast? = some (Action.snap pn)) := by
  unfold toolNavigate
  cases strOrNone u with
  | none => exact ⟨trPagesOK_nil pn, by intro res tr h; exact Except.noConfusion h⟩
  | some url =>
    cases h1 : c.getPage pn with
    | error m => simp [h1, tstep, traceOf, trPagesOK, pageOfAction]
    | ok p =>
      cases h2 : c.gotoUrl p url with
      | error m => simp [h1, h2, tstep, traceOf, trPagesOK, pageOfAction]
      | ok v2 =>
        cases h3 : c.waitLoad p with
        | error m => simp [h1, h2, h3, tstep, traceOf, trPagesOK, pageOfAction]
        | ok v3 =>
          cases h4 : c.getAISnapshot pn with
          | error m => simp [h1, h2, h3, h4, tstep, traceOf, trPagesOK, pageOfAction]
          | ok snapText =>
            simp only [h1, h2, h3, h4, tstep]
            refine ⟨by simp [traceOf, trPagesOK, pageOfAction], ?_⟩
            intro res tr h
            simp only [Except.ok.injEq, Prod.mk.injEq] at h
            obtain ⟨hres, htr⟩ := h
            subst hres htr
            exact ⟨by simp, "Navigated to " ++ url ++ "\n\n", snapText, rfl, rfl, by simp⟩

theorem strOrNone_eq_some {o : Option String} {s : String} (h : strOrNone o = some s) :
    o = some s ∧ s ≠ "" := by
  cases o with
  | none => exact Option.noConfusion h
  | some v =>
    by_cases hv : v = ""
    · simp [strOrNone, hv] at h
    · simp only [strOrNone, if_neg hv] at h
      injection h with h
      subst h
      exact ⟨rfl, hv⟩

theorem toolSnapshot_props (pn : String) (c : ClientModel) :
    trPagesOK pn (traceOf (toolSnapshot pn c)) ∧
    (∀ res tr, toolSnapshot pn c = Except.ok (res, tr) → resultWellTyped res = true) := by
  unfold toolSnapshot
  cases h1 : c.getAISnapshot pn with
  | error m => simp [h1, tstep, traceOf, trPagesOK, pageOfAction]
  | ok s =>
    simp only [h1, tstep]
    refine ⟨by simp [traceOf, trPagesOK, pageOfAction], ?_⟩
    intro res tr h
    simp only [Except.ok.injEq, Prod.mk.injEq] at h
    obtain ⟨hres, htr⟩ := h
    subst hres
    simp

theorem toolClick_props (pn : String) (r : Option String) (c : ClientModel) :
    trPagesOK pn (traceOf (toolClick pn r c)) ∧
    (∀ res tr, toolClick pn r c = Except.ok (res, tr) →
      resultWellTyped res = true ∧
      ∃ pre snapText, c.getAISnapshot pn = Except.ok snapText ∧
        res = [textItem (pre ++ snapText)] ∧
        tr.getLast? = some (Action.snap pn)) := by
  unfold toolClick
  cases strOrNone r with
  | none => exact ⟨trPagesOK_nil pn, by intro res tr h; exact Except.noConfusion h⟩
  | some ref =>
    cases h1 : c.selectRef pn ref with
    | error m => simp [h1, tstep, traceOf, trPagesOK, pageOfAction]
    | ok elemOpt =>
      cases elemOpt with
      | none => simp [h1, tstep, traceOf, trPagesOK, pageOfAction]
      | some elem =>
        cases h2 : c.clickElem elem with
        | error m => simp [h1, h2, tstep, traceOf, trPagesOK, pageOfAction]
        | ok v2 =>
          cases h3 : c.getPage pn with
          | error m => simp [h1, h2, h3, tstep, traceOf, trPagesOK, pageOfAction]
          | ok p =>
            cases h4 : c.waitLoad p with
            | error m => simp [h1, h2, h3, h4, tstep, traceOf, trPagesOK, pageOfAction]
            | ok v4 =>
              cases h5 : c.getAISnapshot pn with
              | error m => simp [h1, h2, h3, h4, h5, tstep, traceOf, trPagesOK, pageOfAction]
              | ok snapText =>
                simp only [h1, h2, h3, h4, h5, tstep]
                refine ⟨by simp [traceOf, trPagesOK, pageOfAction], ?_⟩
                intro res tr h
                simp only [Except.ok.injEq, Prod.mk.injEq] at h
                obtain ⟨hres, htr⟩ := h
                subst hres htr
                exact ⟨by simp, "Clicked element [ref=" ++ ref ++ "]\n\n", snapText, rfl, rfl,
                  by simp⟩

theorem toolType_props (pn : String) (r t : Option String) (cl : Option Bool)
    (c : ClientModel) :
    trPagesOK pn (traceOf (toolType pn r t cl c)) ∧
    (∀ res tr, toolType pn r t cl c = Except.ok (res, tr) →
      resultWellTyped res = true ∧
      ∃ pre snapText, c.getAISnapshot pn = Except.ok snapText ∧
        res = [textItem (pre ++ snapText)] ∧
        tr.getLast? = some (Action.snap pn)) := by
  unfold toolType
  cases strOrNone r with
  | none => exact ⟨trPagesOK_nil pn, by intro res tr h; exact Except.noConfusion h⟩
  | some ref =>
    cases strOrNone t with
    | none => exact ⟨trPagesOK_nil pn, by intro res tr h; exact Except.noConfusion h⟩
    | some text =>
      cases h1 : c.selectRef pn ref with
      | error m => simp [h1, tstep, traceOf, trPagesOK, pageOfAction]
      | ok elemOpt =>
        cases elemOpt with
        | none => simp [h1, tstep, traceOf, trPagesOK, pageOfAction]
        | some elem =>
          cases hc : cl.getD false with
          | true =>
            cases h2 : c.fillElem elem text with
            | error m => simp [h1, hc, h2, tstep, traceOf, trPagesOK, pageOfAction]
            | ok v2 =>
              cases h3 : c.getAISnapshot pn with
              | error m => simp [h1, hc, h2, h3, tstep, traceOf, trPagesOK, pageOfAction]
              | ok snapText =>
                simp only [h1, hc, h2, h3, tstep]
                refine ⟨by simp [traceOf, trPagesOK, pageOfAction], ?_⟩
                intro res tr h
                simp only [Except.ok.injEq, Prod.mk.injEq] at h
                obtain ⟨hres, htr⟩ := h
                subst hres htr
                exact ⟨by simp, "Typed \"" ++ text ++ "\" into [ref=" ++ ref ++ "]\n\n", snapText,
                  rfl, rfl, by simp⟩
          | false =>
            cases h2 : c.typeElem elem text with
            | error m => simp [h1, hc, h2, tstep, traceOf, trPagesOK, pageOfAction]
            | ok v2 =>
              cases h3 : c.getAISnapshot pn with
              | error m => simp [h1, hc, h2, h3, tstep, traceOf, trPagesOK, pageOfAction]
              | ok snapText =>
                simp only [h1, hc, h2, h3, tstep]
                refine ⟨by simp [traceOf, trPagesOK, pageOfAction], ?_⟩
                intro res tr h
                simp only [Except.ok.injEq, Prod.mk.injEq] at h
                obtain ⟨hres, htr⟩ := h
                subst hres htr
                exact ⟨by simp, "Typed \"" ++ text ++ "\" into [ref=" ++ ref ++ "]\n\n", snapText,
                  rfl, rfl, by simp⟩

theorem toolScreenshot_props (pn : String) (fp : Option Bool) (c : ClientModel) :
    trPagesOK pn (traceOf (toolScreenshot pn fp c)) ∧
    (∀ res tr, toolScreenshot pn fp c = Except.ok (res, tr) → resultWellTyped res = true) := by
  unfold toolScreenshot
  cases h1 : c.getPage pn with
  | error m => simp [h1, tstep, traceOf, trPagesOK, pageOfAction]
  | ok p =>
    cases h2 : c.screenshot p (fp.getD false) with
    | error m => simp [h1, h2, tstep, traceOf, trPagesOK, pageOfAction]
    | ok b64 =>
      simp only [h1, h2, tstep]
      refine ⟨by simp [traceOf, trPagesOK, pageOfAction], ?_⟩
      intro res tr h
      simp only [Except.ok.injEq, Prod.mk.injEq] at h
      obtain ⟨hres, htr⟩ := h
      subst hres
      simp

theorem toolScroll_props (pn : String) (d : Option String) (am : Option Int)
    (c : ClientModel) :
    trPagesOK pn (traceOf (toolScroll pn d am c)) ∧
    (∀ res tr, toolScroll pn d am c = Except.ok (res, tr) →
      resultWellTyped res = true ∧
      ∃ pre snapText, c.getAISnapshot pn = Except.ok snapText ∧
        res = [textItem (pre ++ snapText)] ∧
        tr.getLast? = some (Action.snap pn)) ∧
    (∀ p dx dy, Action.wheelA p dx dy ∈ traceOf (toolScroll pn d am c) →
      dx = 0 ∧
      ∃ direction, strOrNone d = some direction ∧
        dy = (if direction = "down" then scrollAmount am else -scrollAmount am)) := by
  unfold toolScroll
  cases hd : strOrNone d with
  | none =>
    refine ⟨trPagesOK_nil pn, by intro res tr h; exact Except.noConfusion h, ?_⟩
    intro p dx dy hmem
    exact absurd hmem (List.not_mem_nil _)
  | some direction =>
    cases h1 : c.getPage pn with
    | error m =>
      simp [h1, tstep, traceOf, trPagesOK, pageOfAction]
    | ok p =>
      cases h2 : c.wheel p 0
          (if direction = "down" then scrollAmount am else -scrollAmount am) with
      | error m =>
        simp only [h1, h2, tstep]
        refine ⟨by simp [traceOf, trPagesOK, pageOfAction],
          by intro res tr h; exact Except.noConfusion h, ?_⟩
        intro p' dx dy hmem
        simp [traceOf] at hmem
        obtain ⟨hp, hdx, hdy⟩ := hmem
        exact ⟨hdx, direction, rfl, hdy⟩
      | ok v2 =>
        cases h3 : c.waitLoad p with
        | error m =>
          simp only [h1, h2, h3, tstep]
          refine ⟨by simp [traceOf, trPagesOK, pageOfAction],
            by intro res tr h; exact Except.noConfusion h, ?_⟩
          intro p' dx dy hmem
          simp [traceOf] at hmem
          obtain ⟨hp, hdx, hdy⟩ := hmem
          exact ⟨hdx, direction, rfl, hdy⟩
        | ok v3 =>
          cases h4 : c.getAISnapshot pn with
          | error m =>
            simp only [h1, h2, h3, h4, tstep]
            refine ⟨by simp [traceOf, trPagesOK, pageOfAction],
              by intro res tr h; exact Except.noConfusion h, ?_⟩
            intro p' dx dy hmem
            simp [traceOf] at hmem
            obtain ⟨hp, hdx, hdy⟩ := hmem
            exact ⟨hdx, direction, rfl, hdy⟩
          | ok snapText =>
            simp only [h1, h2, h3, h4, tstep]
            refine ⟨by simp [traceOf, trPagesOK, pageOfAction], ?_, ?_⟩
            · intro res tr h
              simp only [Except.ok.injEq, Prod.mk.injEq] at h
              obtain ⟨hres, htr⟩ := h
              subst hres htr
              exact ⟨by simp,
                "Scrolled " ++ direction ++ " " ++ toString (scrollAmount am) ++ "px\n\n",
                snapText, rfl, rfl, by simp⟩
            · intro p' dx dy hmem
              simp [traceOf] at hmem
              obtain ⟨hp, hdx, hdy⟩ := hmem
              exact ⟨hdx, direction, rfl, hdy⟩

theorem toolRunScriptCase_props (pn : String) (sc : Option String) (c : ClientModel) :
    trPagesOK pn (traceOf (toolRunScriptCase pn sc c)) ∧
    (∀ res tr, toolRunScriptCase pn sc c = Except.ok (res, tr) →
      resultWellTyped res = true) := by
  unfold toolRunScriptCase
  cases strOrNone sc with
  | none => exact ⟨trPagesOK_nil pn, by intro res tr h; exact Except.noConfusion h⟩
  | some script =>
    cases h1 : c.getPage pn with
    | error m => simp [h1, tstep, traceOf, trPagesOK, pageOfAction]
    | ok p =>
      cases h2 : c.runScript p script with
      | error m => simp [h1, h2, tstep, traceOf, trPagesOK, pageOfAction]
      | ok resOpt =>
        simp only [h1, h2, tstep]
        refine ⟨by simp [traceOf, trPagesOK, pageOfAction], ?_⟩
        intro res tr h
        simp only [Except.ok.injEq, Prod.mk.injEq] at h
        obtain ⟨hres, htr⟩ := h
        subst hres
        simp

theorem toolListPages_props (pn : String) (c : ClientModel) :
    trPagesOK pn (traceOf (toolListPages c)) ∧
    (∀ res tr, toolListPages c = Except.ok (res, tr) → resultWellTyped res = true) := by
  unfold toolListPages
  cases h1 : c.listPages with
  | error m => simp [h1, tstep, traceOf, trPagesOK, pageOfAction]
  | ok ps =>
    simp only [h1, tstep]
    refine ⟨by simp [traceOf, trPagesOK, pageOfAction], ?_⟩
    intro res tr h
    simp only [Except.ok.injEq, Prod.mk.injEq] at h
    obtain ⟨hres, htr⟩ := h
    subst hres
    simp

theorem toolClosePage_props (pa : Option String) (c : ClientModel) :
    (∀ a ∈ traceOf (toolClosePage pa c), ∀ q, pageOfAction a = some q → pa = some q) ∧
    (∀ res tr, toolClosePage pa c = Except.ok (res, tr) → resultWellTyped res = true) := by
  unfold toolClosePage
  cases hp : strOrNone pa with
  | none =>
    refine ⟨?_, by intro res tr h; exact Except.noConfusion h⟩
    intro a ha
    exact absurd ha (List.not_mem_nil a)
  | some pageToClose =>
    obtain ⟨hdef, hne⟩ := strOrNone_eq_some hp
    cases h1 : c.closePage pageToClose with
    | error m => simp [h1, tstep, traceOf, pageOfAction, hdef]
    | ok v =>
      simp only [h1, tstep]
      refine ⟨by simp [traceOf, pageOfAction, hdef], ?_⟩
      intro res tr h
      simp only [Except.ok.injEq, Prod.mk.injEq] at h
      obtain ⟨hres, htr⟩ := h
      subst hres
      simp

theorem runTool_wt (name : String) (args : ToolArgs) (c : ClientModel) :
    ∀ res tr, runTool name args c = Except.ok (res, tr) → resultWellTyped res = true := by
  intro res tr
  unfold runTool
  split
  · exact fun h => (toolSnapshot_props _ c).2 res tr h
  · exact fun h => ((toolNavigate_props _ args.url c).2 res tr h).1
  · exact fun h => ((toolClick_props _ args.ref c).2 res tr h).1
  · exact fun h => ((toolType_props _ args.ref args.text args.clear c).2 res tr h).1
  · exact fun h => (toolScreenshot_props _ args.fullPage c).2 res tr h
  · exact fun h => ((toolScroll_props _ args.direction args.amount c).2.1 res tr h).1
  · exact fun h => (toolRunScriptCase_props _ args.script c).2 res tr h
  · exact fun h => (toolListPages_props (pageNameOf args.page) c).2 res tr h
  · exact fun h => (toolClosePage_props args.page c).2 res tr h
  · exact fun h => Except.noConfusion h

theorem runTool_pages (name : String) (args : ToolArgs) (c : ClientModel) :
    ∀ a ∈ traceOf (runTool name args c), ∀ q, pageOfAction a = some q →
      q = pageNameOf args.page ∨ args.page = some q := by
  unfold runTool
  split
  · exact fun a ha q hq => Or.inl ((toolSnapshot_props _ c).1 a ha q hq)
  · exact fun a ha q hq => Or.inl ((toolNavigate_props _ args.url c).1 a ha q hq)
  · exact fun a ha q hq => Or.inl ((toolClick_props _ args.ref c).1 a ha q hq)
  · exact fun a ha q hq =>
      Or.inl ((toolType_props _ args.ref args.text args.clear c).1 a ha q hq)
  · exact fun a ha q hq => Or.inl ((toolScreenshot_props _ args.fullPage c).1 a ha q hq)
  · exact fun a ha q hq =>
      Or.inl ((toolScroll_props _ args.direction args.amount c).1 a ha q hq)
  · exact fun a ha q hq => Or.inl ((toolRunScriptCase_props _ args.script c).1 a ha q hq)
  · exact fun a ha q hq => Or.inl ((toolListPages_props (pageNameOf args.page) c).1 a ha q hq)
  · exact fun a ha q hq => Or.inr ((toolClosePage_props args.page c).1 a ha q hq)
  · intro a ha
    simp only [traceOf] at ha
    exact absurd ha (List.not_mem_nil a)

theorem runTool_unknown (name : String) (args : ToolArgs) (c : ClientModel)
    (h : name ∉ toolNames) :
    runTool name args c = Except.error ("Unknown tool: " ++ name, []) := by
  unfold runTool
  split
  all_goals first
    | rfl
    | exact absurd (by simp [toolNames]) h

theorem handleToolCall_trace (name : String) (args : ToolArgs) (c : ClientModel) :
    (handleToolCall name args c).2 = traceOf (runTool name args c) := by
  unfold handleToolCall traceOf
  cases runTool name args c with
  | ok v => obtain ⟨res, tr⟩ := v; rfl
  | error e => obtain ⟨m, tr⟩ := e; rfl

/-! ### Claim theorems -/

/-- C4: `handleToolCall` never throws across the tool-call boundary: for every
tool name, argument object and client behaviour, the returned value is a list
of well-typed content items (text string or base64 PNG image); any error
raised inside a tool body is caught and returned as the text
`Error: <message>`, and an unknown tool name yields the
`Error: Unknown tool: <name>` text result. -/
theorem handleToolCall_never_throws (name : String) (args : ToolArgs) (c : ClientModel) :
    resultWellTyped (handleToolCall name args c).1 = true ∧
    (∀ m tr, runTool name args c = Except.error (m, tr) →
      handleToolCall name args c = ([errItem m], tr)) ∧
    (name ∉ toolNames →
      handleToolCall name args c = ([errItem ("Unknown tool: " ++ name)], [])) := by
  refine ⟨?_, ?_, ?_⟩
  · cases hr : runTool name args c with
    | ok v =>
      obtain ⟨res, tr⟩ := v
      have hh : handleToolCall name args c = (res, tr) := by
        unfold handleToolCall; rw [hr]
      rw [hh]
      exact runTool_wt name args c res tr hr
    | error e =>
      obtain ⟨m, tr⟩ := e
      have hh : handleToolCall name args c = ([errItem m], tr) := by
        unfold handleToolCall; rw [hr]
      rw [hh]
      simp
  · intro m tr hr
    unfold handleToolCall; rw [hr]
  · intro hn
    unfold handleToolCall; rw [runTool_unknown name args c hn]

theorem handleToolCall_never_throws_witness :
    resultWellTyped (handleToolCall "bogus_tool" {} cTest).1 = true ∧
    handleToolCall "bogus_tool" {} cTest =
      ([errItem ("Unknown tool: " ++ "bogus_tool")], []) :=
  ⟨(handleToolCall_never_throws "bogus_tool" {} cTest).1,
   (handleToolCall_never_throws "bogus_tool" {} cTest).2.2 (by simp [toolNames])⟩

/-- C8: a tool call whose arguments omit the page name operates on the page
named "default": every page-named external action in the call's trace targets
"default". -/
theorem omitted_page_defaults (name : String) (args : ToolArgs) (c : ClientModel)
    (h : args.page = none) :
    ∀ a ∈ (handleToolCall name args c).2, ∀ q, pageOfAction a = some q →
      q = "default" := by
  intro a ha q hq
  rw [handleToolCall_trace] at ha
  rcases runTool_pages name args c a ha q hq with h1 | h2
  · rw [h1, h]; rfl
  · rw [h] at h2; exact Option.noConfusion h2

theorem omitted_page_defaults_witness :
    (handleToolCall "browser_snapshot" {} cTest).2 = [Action.snap "default"] ∧
    ("default" : String) = "default" :=
  ⟨rfl,
   omitted_page_defaults "browser_snapshot" {} cTest rfl (Action.snap "default")
     (by exact List.mem_singleton.mpr rfl) "default" rfl⟩

/-- C7 counterexample: a caller-supplied empty page name is rewritten to
"default" by `(args?.page as string) || "default"` — the snapshot call of a
`browser_snapshot` invocation with `page = ""` targets "default", a name
other than the one supplied. -/
theorem empty_page_name_rewritten :
    (handleToolCall "browser_snapshot" { page := some "" } cTest).2 =
      [Action.snap "default"] ∧
    ("" : String) ≠ "default" :=
  ⟨rfl, by decide⟩

/-- C7 amended: a missing or empty page name is replaced by "default" at the
tool boundary (JavaScript falsiness of the empty string); any non-empty
caller-supplied name reaches every page-named client call exactly as
supplied, with no normalization. -/
theorem nonempty_page_name_unnormalized (name : String) (args : ToolArgs)
    (c : ClientModel) (s : String) (hs : args.page = some s) (hne : s ≠ "") :
    pageNameOf args.page = s ∧
    (∀ a ∈ (handleToolCall name args c).2, ∀ q, pageOfAction a = some q → q = s) ∧
    pageNameOf (some "") = "default" ∧ pageNameOf none = "default" := by
  have hpn : pageNameOf args.page = s := by
    rw [hs]; simp [pageNameOf, strOrNone, hne]
  refine ⟨hpn, ?_, rfl, rfl⟩
  intro a ha q hq
  rw [handleToolCall_trace] at ha
  rcases runTool_pages name args c a ha q hq with h1 | h2
  · rw [h1, hpn]
  · rw [hs] at h2
    injection h2 with h2
    exact h2.symm

theorem nonempty_page_name_unnormalized_witness :
    pageNameOf (some "main") = "main" ∧
    (handleToolCall "browser_snapshot" { page := some "main" } cTest).2 =
      [Action.snap "main"] ∧
    ("main" : String) = "main" :=
  ⟨(nonempty_page_name_unnormalized "browser_snapshot" { page := some "main" } cTest
      "main" rfl (by decide)).1,
   rfl,
   (nonempty_page_name_unnormalized "browser_snapshot" { page := some "main" } cTest
      "main" rfl (by decide)).2.1
     (Action.snap "main") (by exact List.mem_singleton.mpr rfl) "main" rfl⟩

/-- C9: each state-mutating tool (browser_navigate, browser_click,
browser_type, browser_scroll), when it succeeds, ends by taking a fresh AI
snapshot of the target page — the last external action of the call is
`getAISnapshot` on that page — and returns that snapshot's text inside its
text result. -/
theorem mutating_tool_returns_fresh_snapshot (t : String) (ht : t ∈ mutatingTools)
    (args : ToolArgs) (c : ClientModel) (res : ToolResult) (tr : List Action)
    (h : runTool t args c = Except.ok (res, tr)) :
    ∃ pre snapText, c.getAISnapshot (pageNameOf args.page) = Except.ok snapText ∧
      res = [textItem (pre ++ snapText)] ∧
      tr.getLast? = some (Action.snap (pageNameOf args.page)) := by
  fin_cases ht
  · obtain ⟨_, pre, snapText, hsnap, hres, hlast⟩ :=
      (toolNavigate_props (pageNameOf args.page) args.url c).2 res tr h
    exact ⟨pre, snapText, hsnap, hres, hlast⟩
  · obtain ⟨_, pre, snapText, hsnap, hres, hlast⟩ :=
      (toolClick_props (pageNameOf args.page) args.ref c).2 res tr h
    exact ⟨pre, snapText, hsnap, hres, hlast⟩
  · obtain ⟨_, pre, snapText, hsnap, hres, hlast⟩ :=
      (toolType_props (pageNameOf args.page) args.ref args.text args.clear c).2 res tr h
    exact ⟨pre, snapText, hsnap, hres, hlast⟩
  · obtain ⟨_, pre, snapText, hsnap, hres, hlast⟩ :=
      (toolScroll_props (pageNameOf args.page) args.direction args.amount c).2.1 res tr h
    exact ⟨pre, snapText, hsnap, hres, hlast⟩

theorem mutating_tool_returns_fresh_snapshot_witness :
    ∃ pre snapText,
      cTest.getAISnapshot (pageNameOf (some "main")) = Except.ok snapText ∧
      [textItem ("Navigated to " ++ "u" ++ "\n\n" ++ "SNAP")] =
        [textItem (pre ++ snapText)] ∧
      ([Action.getPage "main", Action.goto 1 "u", Action.waitLoad 1,
        Action.snap "main"] : List Action).getLast? =
        some (Action.snap (pageNameOf (some "main"))) :=
  mutating_tool_returns_fresh_snapshot "browser_navigate" (by simp [mutatingTools])
    { page := some "main", url := some "u" } cTest
    [textItem ("Navigated to " ++ "u" ++ "\n\n" ++ "SNAP")]
    [Action.getPage "main", Action.goto 1 "u", Action.waitLoad 1, Action.snap "main"] rfl

/-- C10: the scroll delta semantics: the amount defaults to 500 when the
amount argument is absent or equal to 0 (JavaScript `||`), and any wheel call
a `browser_scroll` invocation performs uses delta +amount for direction
"down" and -amount otherwise — so a caller passing amount 0 scrolls by 500
pixels. -/
theorem scroll_amount_semantics (args : ToolArgs) (c : ClientModel) :
    scrollAmount none = 500 ∧ scrollAmount (some 0) = 500 ∧
    (∀ v : Int, v ≠ 0 → scrollAmount (some v) = v) ∧
    (∀ p dx dy, Action.wheelA p dx dy ∈ traceOf (runTool "browser_scroll" args c) →
      dx = 0 ∧ ∃ direction, strOrNone args.direction = some direction ∧
        dy = (if direction = "down" then scrollAmount args.amount
              else -scrollAmount args.amount)) := by
  refine ⟨rfl, rfl, ?_, ?_⟩
  · intro v hv; simp [scrollAmount, hv]
  · exact (toolScroll_props (pageNameOf args.page) args.direction args.amount c).2.2

theorem scroll_amount_semantics_witness :
    ((0 : Int) = 0 ∧ ∃ direction, strOrNone (some "up") = some direction ∧
      (-500 : Int) = (if direction = "down" then scrollAmount (some 0)
        else -scrollAmount (some 0))) ∧
    scrollAmount (some 0) = 500 :=
  ⟨(scroll_amount_semantics { direction := some "up", amount := some 0 } cTest).2.2.2
      1 0 (-500) (by exact List.Mem.tail _ (List.Mem.head _)),
   (scroll_amount_semantics { direction := some "up", amount := some 0 } cTest).2.1⟩

/-- C2: resolution by target identity scans all contexts and their pages in
order, queries each page's identity, and returns the first page whose
identity equals the requested targetId; when no page matches — in particular
when every page's identity differs or its query failed — it fails with the
`PageResolutionError` message `Page "<name>" not found in browser
contexts`. -/
theorem resolve_first_identity_match (b : BrowserModel) (tid nm : String) :
    resolveTarget b tid nm =
      (match (allPages b).find? (pageMatches tid) with
        | some p => Except.ok p
        | none => Except.error (ClientError.pageResolutionError
            ("Page \"" ++ nm ++ "\" not found in browser contexts"))) ∧
    ((∀ p ∈ allPages b, p.queryResult ≠ some tid) →
      resolveTarget b tid nm = Except.error (ClientError.pageResolutionError
        ("Page \"" ++ nm ++ "\" not found in browser contexts"))) := by
  have heq : findPageByTargetId b tid = (allPages b).find? (pageMatches tid) := by
    unfold findPageByTargetId allPages
    exact findInContexts_eq_find? tid b.contexts
  constructor
  · unfold resolveTarget
    rw [heq]
  · intro hnone
    have hfn : (allPages b).find? (pageMatches tid) = none := by
      rw [List.find?_eq_none]
      intro p hp
      simpa [pageMatches] using hnone p hp
    unfold resolveTarget
    rw [heq, hfn]

theorem resolve_first_identity_match_witness :
    (resolveTarget b0 "t1" "main" =
      (match (allPages b0).find? (pageMatches "t1") with
        | some p => Except.ok p
        | none => Except.error (ClientError.pageResolutionError
            ("Page \"" ++ "main" ++ "\" not found in browser contexts")))) ∧
    resolveTarget b0 "t1" "main" = Except.error (ClientError.pageResolutionError
      ("Page \"" ++ "main" ++ "\" not found in browser contexts")) :=
  ⟨(resolve_first_identity_match b0 "t1" "main").1,
   (resolve_first_identity_match b0 "t1" "main").2 (by decide)⟩

/-- C5 counterexample: with zero prior state, an attach attempt that fails
with `ConnectionLostError` is surfaced directly — the trace shows a single
attach attempt and no retry — whereas the retry-once policy the claim
describes would have recovered and returned the browser. -/
theorem no_transparent_retry_counterexample :
    (ensureConnected sEmpty envLost).1 =
      Except.error (ClientError.connectionLostError "browser connection dropped") ∧
    (ensureConnected sEmpty envLost).2 =
      [BrokerAction.fetchEndpoint, BrokerAction.attach "ws://127.0.0.1:9223/devtools"] ∧
    attachRetryOncePolicy envLost = Except.ok b0 :=
  ⟨rfl, rfl, rfl⟩

/-- C5 amended: the Connection Broker never retries an attach: a failed
endpoint fetch or a failed attach — `ConnectionLostError` included — is
surfaced immediately, and every `ensureConnected` call performs at most one
attach attempt; recovery from connection loss happens only because a later
call attaches fresh.  Separately, per-page identity-query failures during
page resolution are swallowed by skipping the page: a returned page always
has a successfully queried matching identity. -/
theorem broker_no_retry_single_attempt (s : Session) (env : BrokerEnv) :
    (∀ e, env.fetchResult = Except.error e →
      attachFresh env = (Except.error e, [BrokerAction.fetchEndpoint])) ∧
    (∀ ep e, env.fetchResult = Except.ok ep → env.attachOnce ep = Except.error e →
      attachFresh env =
        (Except.error e, [BrokerAction.fetchEndpoint, BrokerAction.attach ep])) ∧
    ((ensureConnected s env).2.countP
      (fun a => match a with | BrokerAction.attach _ => true | _ => false) ≤ 1) ∧
    (∀ b tid p, findPageByTargetId b tid = some p → p.queryResult = some tid) := by
  refine ⟨?_, ?_, ?_, ?_⟩
  · intro e hf
    simp [attachFresh, hf]
  · intro ep e hf ha
    simp [attachFresh, hf, ha]
  · have hattach : ∀ env' : BrokerEnv, (attachFresh env').2.countP
        (fun a => match a with | BrokerAction.attach _ => true | _ => false) ≤ 1 := by
      intro env'
      unfold attachFresh
      cases hf : env'.fetchResult with
      | error e => simp [List.countP, List.countP.go]
      | ok ep =>
        cases ha : env'.attachOnce ep with
        | error e => simp [ha, List.countP, List.countP.go]
        | ok b => simp [ha, List.countP, List.countP.go]
    unfold ensureConnected
    cases s.browser with
    | none => exact hattach env
    | some b =>
      cases hb : b.connected with
      | true => simp [hb, List.countP, List.countP.go]
      | false => simpa [hb] using hattach env
  · intro b tid p h
    unfold findPageByTargetId at h
    rw [findInContexts_eq_find? tid b.contexts] at h
    have := List.find?_some h
    simpa [pageMatches] using this

theorem broker_no_retry_single_attempt_witness :
    (attachFresh envFetchFail =
      (Except.error (ClientError.httpError "fetch failed"),
       [BrokerAction.fetchEndpoint])) ∧
    (attachFresh envLost =
      (Except.error (ClientError.connectionLostError "browser connection dropped"),
       [BrokerAction.fetchEndpoint, BrokerAction.attach "ws://127.0.0.1:9223/devtools"])) ∧
    ((ensureConnected sEmpty envLost).2.countP
      (fun a => match a with | BrokerAction.attach _ => true | _ => false) ≤ 1) ∧
    (CDPPage.mk 2 (some "t9")).queryResult = some "t9" :=
  ⟨(broker_no_retry_single_attempt sEmpty envFetchFail).1
      (ClientError.httpError "fetch failed") rfl,
   (broker_no_retry_single_attempt sEmpty envLost).2.1
      "ws://127.0.0.1:9223/devtools"
      (ClientError.connectionLostError "browser connection dropped") rfl rfl,
   (broker_no_retry_single_attempt sEmpty envLost).2.2.1,
   (broker_no_retry_single_attempt sEmpty envLost).2.2.2 b0 "t9"
      (CDPPage.mk 2 (some "t9")) rfl⟩

/-- C6: `ensureConnected` returns the cached browser connection unchanged —
performing no endpoint fetch and no attach — whenever one exists and is still
connected; otherwise (no cached connection, as in a process with zero prior
state, or a dead one) it fetches the remote-debugging endpoint and attaches
fresh, caching the new connection and endpoint. -/
theorem ensureConnected_cached_or_fresh (s : Session) (env : BrokerEnv) :
    (∀ b, s.browser = some b → b.connected = true →
      ensureConnected s env = (Except.ok (b, s), [])) ∧
    (s.browser = none → ensureConnected s env = attachFresh env) ∧
    (∀ b, s.browser = some b → b.connected = false →
      ensureConnected s env = attachFresh env) ∧
    (∀ ep b, env.fetchResult = Except.ok ep → env.attachOnce ep = Except.ok b →
      attachFresh env =
        (Except.ok (b, { browser := some b, wsEndpoint := some ep }),
         [BrokerAction.fetchEndpoint, BrokerAction.attach ep])) := by
  refine ⟨?_, ?_, ?_, ?_⟩
  · intro b hb hc
    simp [ensureConnected, hb, hc]
  · intro hb
    simp [ensureConnected, hb]
  · intro b hb hc
    simp [ensureConnected, hb, hc]
  · intro ep b hf ha
    simp [attachFresh, hf, ha]

theorem ensureConnected_cached_or_fresh_witness :
    (ensureConnected sLive envOk = (Except.ok (b0, sLive), [])) ∧
    (ensureConnected sEmpty envOk = attachFresh envOk) ∧
    (attachFresh envOk =
      (Except.ok (b0, sAttached),
       [BrokerAction.fetchEndpoint,
        BrokerAction.attach "ws://127.0.0.1:9223/devtools"])) :=
  ⟨(ensureConnected_cached_or_fresh sLive envOk).1 b0 rfl rfl,
   (ensureConnected_cached_or_fresh sEmpty envOk).2.1 rfl,
   (ensureConnected_cached_or_fresh sEmpty envOk).2.2.2
      "ws://127.0.0.1:9223/devtools" b0 rfl rfl⟩

theorem resolveElement_stale_of_lookupRef_none {cs : SnapClientState}
    {pageName ref : String} (h : lookupRef cs pageName ref = none) :
    resolveElement cs pageName ref = Except.error RefError.staleRefError := by
  unfold lookupRef at h
  unfold resolveElement
  cases hp : cs.pages.lookup pageName with
  | none => simp [hp]
  | some pv =>
    simp only [hp] at h
    cases hc : pv.current with
    | none => simp [hc]
    | some snap =>
      simp only [hc] at h
      simp [hc, h]

/-- C1: resolving a ref against a page whose current snapshot refMap does not
contain it — because the ref was never issued or because a later snapshot
superseded the one that issued it — fails with `StaleRefError` and never
returns an element handle; in particular, after a fresh snapshot whose refMap
lacks the ref, resolution of that ref is stale. -/
theorem resolveElement_stale_ref (cs : SnapClientState) (pageName ref : String)
    (h : lookupRef cs pageName ref = none) :
    resolveElement cs pageName ref = Except.error RefError.staleRefError ∧
    (∀ e, resolveElement cs pageName ref ≠ Except.ok e) ∧
    (∀ newMap : List (String × ElementLocator), newMap.lookup ref = none →
      resolveElement (takeSnapshot cs pageName newMap) pageName ref =
        Except.error RefError.staleRefError) := by
  refine ⟨resolveElement_stale_of_lookupRef_none h, ?_, ?_⟩
  · intro e he
    rw [resolveElement_stale_of_lookupRef_none h] at he
    exact Except.noConfusion he
  · intro newMap hm
    apply resolveElement_stale_of_lookupRef_none
    rw [takeSnapshot_lookupRef]
    exact hm

theorem resolveElement_stale_ref_witness :
    resolveElement cs0 "search" "e3" = Except.error RefError.staleRefError ∧
    resolveElement cs0 "search" "e3" ≠ Except.ok 5 ∧
    resolveElement (takeSnapshot cs0 "search" [("e1", { target := 5 })])
      "search" "e3" = Except.error RefError.staleRefError :=
  ⟨(resolveElement_stale_ref cs0 "search" "e3" rfl).1,
   (resolveElement_stale_ref cs0 "search" "e3" rfl).2.1 5,
   (resolveElement_stale_ref cs0 "search" "e3" rfl).2.2 [("e1", { target := 5 })] rfl⟩

theorem getOrCreate_hit {r : Registry} {n tid : String}
    (h : r.entries.lookup n = some tid) :
    getOrCreate r n = { targetId := tid, registry := r, createdPage := false } := by
  unfold getOrCreate
  rw [h]

/-- C3: `getOrCreate` is idempotent: a second sequential call with the same
name returns the identical targetId, leaves the registry unchanged, and opens
no page — and when the name was initially absent, exactly the first of the
two calls opens a page. -/
theorem getOrCreate_idempotent (r : Registry) (n : String) :
    (getOrCreate (getOrCreate r n).registry n).targetId = (getOrCreate r n).targetId ∧
    (getOrCreate (getOrCreate r n).registry n).registry = (getOrCreate r n).registry ∧
    (getOrCreate (getOrCreate r n).registry n).createdPage = false ∧
    (r.entries.lookup n = none → (getOrCreate r n).createdPage = true) := by
  rw [getOrCreate_hit (getOrCreate_lookup r n)]
  refine ⟨rfl, rfl, rfl, ?_⟩
  intro h
  unfold getOrCreate
  rw [h]

theorem getOrCreate_idempotent_witness :
    (getOrCreate (getOrCreate { entries := [], nextId := 0 } "main").registry
      "main").targetId = (getOrCreate { entries := [], nextId := 0 } "main").targetId ∧
    (getOrCreate { entries := [], nextId := 0 } "main").createdPage = true :=
  ⟨(getOrCreate_idempotent { entries := [], nextId := 0 } "main").1,
   (getOrCreate_idempotent { entries := [], nextId := 0 } "main").2.2.2 rfl⟩

end DevBrowser



